import Mathlib

/-!
Shallow embedding of src/Scripts/ocr/extract_en_text_and_ocr.py.

The script scans a directory of PDF files, extracts text digitally
(PyMuPDF) when the document carries enough embedded text, falls back to
OCR (Tesseract) otherwise, writes one text artifact per document, and
keeps a JSON manifest of per-file outcomes.

Modelling conventions:
- Paths are strings.  BASE_DIR (the resolved repository root) is an
  arbitrary string parameter baseDir; every input file is represented by
  its path relative to BASE_DIR (the glob over IN_DIR only yields files
  below BASE_DIR, so pdf_path.relative_to(BASE_DIR) always succeeds and
  str(pdf_path) is baseDir ++ "/" ++ relPath).
- The external libraries (fitz, pytesseract, PIL) are modelled through
  the narrow interface the script uses: opening a document yields either
  an exception or a list of pages; a page has get_text and a rasterizer
  taking a dpi; the OCR engine maps image bytes and a language code to
  text.  Each of these is fallible (Except String), mirroring Python
  exceptions.
- Filesystem effects are explicit state: the in-memory manifest dict,
  the on-disk content of the META file, the list of artifact writes,
  a trace of work events (document opens, per-page OCR), and the list
  of mkdir calls.
-/

set_option autoImplicit false

namespace SmartLawyer

/-- One manifest record, the value type of the JSON manifest object.
The script only ever stores two shapes of dict: a processed record
with pdf, text path, method and status, and an error record with pdf,
error and status (lines 49 to 54, 70 to 75 and 79 to 83).  Fields that a
shape omits are none. -/
structure Record where
  pdf : String
  text_path : Option String
  method : Option String
  status : String
  err : Option String
deriving DecidableEq, Repr

/-- The manifest is a JSON object: an insertion-ordered map from key
strings to records, modelled as an association list. -/
abbrev Manifest := List (String × Record)

/-- Python dict lookup manifest[key] (line 31). -/
def findRec : Manifest → String → Option Record
  | [], _ => none
  | (k, r) :: m, key => if k = key then some r else findRec m key

/-- Python dict assignment manifest[key] = r: overwrite in place when the
key is present (keeping its position), append otherwise. -/
def insertRec : Manifest → String → Record → Manifest
  | [], key, r => [(key, r)]
  | (k, r0) :: m, key, r =>
      if k = key then (k, r) :: m else (k, r0) :: insertRec m key r

/-- The skip predicate of line 31:
key in manifest and manifest[key].get("status") == "processed". -/
def isProcessed (m : Manifest) (key : String) : Bool :=
  match findRec m key with
  | some r => r.status == "processed"
  | none => false

/-- TESS_LANG = "eng" (line 21). -/
def TESS_LANG : String := "eng"

/-- OUT_DIR relative to BASE_DIR (line 19). -/
def OUT_DIR_REL : String := "Data/in-progress(interim)/pakistancode_civil_text_en"

/-- META relative to BASE_DIR (line 20). -/
def META_REL : String := "Data/metadata/pakistancode_ocr_manifest_en.json"

/-- META.parent relative to BASE_DIR, the directory created before each
manifest write (lines 85 and 92). -/
def META_PARENT_REL : String := "Data/metadata"

def outDirAbs (baseDir : String) : String := baseDir ++ "/" ++ OUT_DIR_REL

def metaParentAbs (baseDir : String) : String := baseDir ++ "/" ++ META_PARENT_REL

/-- One page of an opened document, through the interface the script
uses: page.get_text() (line 40, fallible) and the rasterizer
page.get_pixmap(dpi).tobytes("png") (lines 62 to 63, fallible), returning
image bytes. -/
structure Page where
  getText : Except String String
  render : Nat → Except String String

/-- The OCR engine pytesseract.image_to_string (line 64): image bytes and
a language code to recognized text, fallible. -/
abbrev OcrEngine := String → String → Except String String

/-- One input PDF file: its stem (pdf_path.stem), its path relative to
BASE_DIR, and what fitz.open does on it (line 36): raise, or produce the
list of pages in document order. -/
structure PdfFile where
  stem : String
  relPath : String
  openResult : Except String (List Page)

/-- key = str(pdf_path) (line 30): the absolute path of the input file. -/
def pdfKey (baseDir : String) (f : PdfFile) : String := baseDir ++ "/" ++ f.relPath

/-- str(out_txt.relative_to(BASE_DIR)) for out_txt = OUT_DIR / (stem + ".txt")
(lines 47 and 68). -/
def outRel (f : PdfFile) : String := OUT_DIR_REL ++ "/" ++ (f.stem ++ ".txt")

/-- Absolute path of the output artifact. -/
def outAbs (baseDir : String) (f : PdfFile) : String := baseDir ++ "/" ++ outRel f

/-- Python str.strip() with no argument: drop leading and trailing
whitespace characters (modelled over the ASCII whitespace set of
Char.isWhitespace). -/
def pyStrip (s : String) : String :=
  { data := ((s.data.dropWhile Char.isWhitespace).reverse.dropWhile
      Char.isWhitespace).reverse }

/-- Helper for pySplit: scan the characters, acc holding the reversed
current word. -/
def pySplitAux : List Char → List Char → List String
  | [], acc => if acc.isEmpty then [] else [{ data := acc.reverse }]
  | c :: cs, acc =>
    if c.isWhitespace then
      if acc.isEmpty then pySplitAux cs []
      else { data := acc.reverse } :: pySplitAux cs []
    else pySplitAux cs (c :: acc)

/-- Python str.split() with no separator: split on whitespace runs,
dropping empty pieces. -/
def pySplit (s : String) : List String := pySplitAux s.data []

/-- len(extracted.split()) (line 46). -/
def pyWordCount (s : String) : Nat := (pySplit s).length

/-- The record written on success (lines 49 to 54 and 70 to 75). -/
def procRecord (f : PdfFile) (method : String) : Record :=
  { pdf := f.relPath, text_path := some (outRel f), method := some method,
    status := "processed", err := none }

/-- The record written on error (lines 79 to 83). -/
def errRecord (f : PdfFile) (e : String) : Record :=
  { pdf := f.relPath, text_path := none, method := none,
    status := "error", err := some e }

/-- The digital extraction loop (lines 39 to 42): for each page in order,
txt = page.get_text().strip(); keep txt when non-empty.  An exception in
get_text propagates (to the except handler). -/
def digitalLoop : List Page → Except String (List String)
  | [] => Except.ok []
  | p :: ps =>
    match p.getText with
    | Except.error e => Except.error e
    | Except.ok t =>
      match digitalLoop ps with
      | Except.error e => Except.error e
      | Except.ok rest =>
          Except.ok (if pyStrip t = "" then rest else pyStrip t :: rest)

/-- Work events: fitz.open attempts and per-page rasterize-and-OCR steps,
recording the dpi and language actually passed. -/
inductive Event where
  | openAttempt (path : String)
  | ocrPage (dpi : Nat) (lang : String)
deriving DecidableEq, Repr

/-- The OCR loop (lines 61 to 65): for each page in order, rasterize at
the given dpi, run the OCR engine with the given language, and collect
the raw page text (not trimmed, empty pages kept).  Also returns the
trace of per-page OCR events, including the page on which an exception
was raised. -/
def ocrLoop (ocrE : OcrEngine) (lang : String) (dpi : Nat) :
    List Page → List Event × Except String (List String)
  | [] => ([], Except.ok [])
  | p :: ps =>
    match p.render dpi with
    | Except.error e => ([Event.ocrPage dpi lang], Except.error e)
    | Except.ok img =>
      match ocrE img lang with
      | Except.error e => ([Event.ocrPage dpi lang], Except.error e)
      | Except.ok t =>
        match ocrLoop ocrE lang dpi ps with
        | (evs, Except.error e) => (Event.ocrPage dpi lang :: evs, Except.error e)
        | (evs, Except.ok ts) => (Event.ocrPage dpi lang :: evs, Except.ok (t :: ts))

/-- Outcome of the try block of process_pdf (lines 35 to 76). -/
inductive TryOutcome where
  | digital (content : String)
  | ocr (content : String)
  | exn (e : String)
deriving DecidableEq, Repr

/-- The try block of process_pdf (lines 35 to 76): open the document,
run the digital loop, join the non-empty page texts with a blank line and
trim; when the word count exceeds 20 the digital content is the result,
otherwise the OCR loop runs at dpi 300 with TESS_LANG and its joined,
trimmed output is the result; any exception on the way becomes exn.
Also returns the per-page OCR events performed. -/
def tryBody (ocrE : OcrEngine) (f : PdfFile) : List Event × TryOutcome :=
  match f.openResult with
  | Except.error e => ([], TryOutcome.exn e)
  | Except.ok pages =>
    match digitalLoop pages with
    | Except.error e => ([], TryOutcome.exn e)
    | Except.ok texts =>
      let extracted := pyStrip (String.intercalate "\n\n" texts)
      if pyWordCount extracted > 20 then ([], TryOutcome.digital extracted)
      else
        match ocrLoop ocrE TESS_LANG 300 pages with
        | (evs, Except.error e) => (evs, TryOutcome.exn e)
        | (evs, Except.ok ts) =>
            (evs, TryOutcome.ocr (pyStrip (String.intercalate "\n\n" ts)))

/-- The mutable state the script threads through a run: the in-memory
manifest dict, the content of the META file on disk (none when the file
does not exist), the artifact writes performed (path and content, in
order), the trace of work events, and the mkdir calls performed. -/
structure St where
  manifest : Manifest
  disk : Option Manifest
  outputs : List (String × String)
  trace : List Event
  dirsCreated : List String
deriving DecidableEq, Repr

/-- The per-file manifest flush (lines 85 to 86): create META.parent if
missing and overwrite META with the serialized manifest. -/
def flushManifest (baseDir : String) (s : St) : St :=
  { s with disk := some s.manifest,
           dirsCreated := s.dirsCreated ++ [metaParentAbs baseDir] }

/-- process_pdf (lines 29 to 86).  Skip when the manifest marks the key
processed (lines 31 to 33).  Otherwise run the try block; a digital
success writes the artifact, records method pymupdf and returns at
line 56, BEFORE the flush of lines 85 to 86; an OCR success writes the
artifact, records method tesseract and falls through to the flush; an
exception records the error (lines 77 to 83) and falls through to the
flush. -/
def process_pdf (ocrE : OcrEngine) (baseDir : String) (f : PdfFile) (s : St) : St :=
  if isProcessed s.manifest (pdfKey baseDir f) then s
  else
    match tryBody ocrE f with
    | (evs, TryOutcome.digital content) =>
        { manifest := insertRec s.manifest (pdfKey baseDir f) (procRecord f "pymupdf"),
          disk := s.disk,
          outputs := s.outputs ++ [(outAbs baseDir f, content)],
          trace := s.trace ++ Event.openAttempt (pdfKey baseDir f) :: evs,
          dirsCreated := s.dirsCreated }
    | (evs, TryOutcome.ocr content) =>
        flushManifest baseDir
          { manifest := insertRec s.manifest (pdfKey baseDir f) (procRecord f "tesseract"),
            disk := s.disk,
            outputs := s.outputs ++ [(outAbs baseDir f, content)],
            trace := s.trace ++ Event.openAttempt (pdfKey baseDir f) :: evs,
            dirsCreated := s.dirsCreated }
    | (evs, TryOutcome.exn e) =>
        flushManifest baseDir
          { manifest := insertRec s.manifest (pdfKey baseDir f) (errRecord f e),
            disk := s.disk,
            outputs := s.outputs,
            trace := s.trace ++ Event.openAttempt (pdfKey baseDir f) :: evs,
            dirsCreated := s.dirsCreated }

/-- The main loop (lines 88 to 89): process each discovered file in
order.  The files argument stands for sorted(IN_DIR.glob("*.pdf")). -/
def runPipeline (ocrE : OcrEngine) (baseDir : String) :
    List PdfFile → St → St
  | [], s => s
  | f :: fs, s => runPipeline ocrE baseDir fs (process_pdf ocrE baseDir f s)

/-- The loop followed by the unconditional final manifest write
(lines 88 to 93). -/
def runAll (ocrE : OcrEngine) (baseDir : String) (files : List PdfFile) (s : St) : St :=
  flushManifest baseDir (runPipeline ocrE baseDir files s)

/-- What is on disk at META before the run: none when the file does not
exist, some none when it exists but is not parseable JSON, some (some m)
when it parses to the mapping m. -/
abbrev MetaDisk := Option (Option Manifest)

/-- Manifest loading (lines 25 to 27): an absent file yields the empty
mapping; an unparseable file makes json.loads raise, which nothing
catches, so the run dies there. -/
def loadManifest : MetaDisk → Except String Manifest
  | none => Except.ok []
  | some none => Except.error "json.decoder.JSONDecodeError"
  | some (some m) => Except.ok m

/-- The state at the start of the loop: loaded manifest in memory, the
META file on disk as found, no writes yet, OUT_DIR already created
(line 23). -/
def initialSt (baseDir : String) (dm : MetaDisk) (m : Manifest) : St :=
  { manifest := m,
    disk := match dm with | some (some m0) => some m0 | _ => none,
    outputs := [], trace := [],
    dirsCreated := [outDirAbs baseDir] }

/-- The whole script: create OUT_DIR (line 23), load the manifest
(lines 25 to 27, fatal on unparseable content), then run the loop and
the final flush.  A fatal load reaches no file. -/
def runScript (ocrE : OcrEngine) (baseDir : String) (dm : MetaDisk)
    (files : List PdfFile) : Except String St :=
  match loadManifest dm with
  | Except.error e => Except.error e
  | Except.ok m => Except.ok (runAll ocrE baseDir files (initialSt baseDir dm m))

/-! Concrete fixtures used by witnesses and counterexamples. -/

/-- An OCR engine that recognizes every image. -/
def ocrE0 : OcrEngine := fun img lang => Except.ok ("<" ++ lang ++ ">" ++ img)

/-- A page whose embedded text has 21 whitespace-separated words. -/
def pageDigital : Page :=
  { getText := Except.ok " w w w w w w w w w w w w w w w w w w w w w ",
    render := fun _ => Except.ok "imgD" }

/-- A page with no embedded text that renders fine. -/
def pageScan : Page :=
  { getText := Except.ok "", render := fun _ => Except.ok "imgS" }

/-- A text-rich PDF: the digital path applies. -/
def fDigital : PdfFile :=
  { stem := "doc1", relPath := "Data/raw/pakistancode_civil_pdfs_en/doc1.pdf",
    openResult := Except.ok [pageDigital] }

/-- A scanned PDF with no embedded text: the OCR fallback applies. -/
def fScan : PdfFile :=
  { stem := "doc2", relPath := "Data/raw/pakistancode_civil_pdfs_en/doc2.pdf",
    openResult := Except.ok [pageScan] }

/-- A corrupt PDF: fitz.open raises. -/
def fBad : PdfFile :=
  { stem := "doc3", relPath := "Data/raw/pakistancode_civil_pdfs_en/doc3.pdf",
    openResult := Except.error "cannot open broken document" }

/-- The state at the start of a run over an empty, absent manifest. -/
def st0 : St :=
  { manifest := [], disk := none, outputs := [], trace := [],
    dirsCreated := [outDirAbs "/repo"] }

/-- Spec-side description of the combined digital text (section 4.2
step 3 of the spec): trim each page text, keep only the non-empty ones
in page order, join with a blank line, trim the result.  Used to state
the refinement claim about the digital extraction attempt. -/
def specCombineDigital (raw : List String) : String :=
  pyStrip (String.intercalate "\n\n" ((raw.map pyStrip).filter (fun t => t != "")))

/-- A fresh-process state whose manifest is the one a previous run left
on disk: what a second invocation of the script starts from. -/
def restartFrom (baseDir : String) (m : Manifest) : St :=
  { manifest := m, disk := some m, outputs := [], trace := [],
    dirsCreated := [outDirAbs baseDir] }

/-- A state whose manifest already marks fDigital processed, as left by
a fully successful earlier run. -/
def stDone : St :=
  restartFrom "/repo" [(pdfKey "/repo" fDigital, procRecord fDigital "pymupdf")]

/-! Helper lemmas about the embedding. -/

theorem findRec_insertRec_self (m : Manifest) (k : String) (r : Record) :
    findRec (insertRec m k r) k = some r := by
  induction m with
  | nil => simp [insertRec, findRec]
  | cons p m ih =>
    obtain ⟨k0, r0⟩ := p
    by_cases h : k0 = k
    · subst h; simp [insertRec, findRec]
    · simp [insertRec, findRec, h, ih]

theorem process_pdf_skipped (ocrE : OcrEngine) (baseDir : String) (f : PdfFile)
    (s : St) (h : isProcessed s.manifest (pdfKey baseDir f) = true) :
    process_pdf ocrE baseDir f s = s := by
  simp [process_pdf, h]

theorem process_pdf_digital (ocrE : OcrEngine) (baseDir : String) (f : PdfFile)
    (s : St) (evs : List Event) (content : String)
    (hskip : isProcessed s.manifest (pdfKey baseDir f) = false)
    (htb : tryBody ocrE f = (evs, TryOutcome.digital content)) :
    process_pdf ocrE baseDir f s =
      { manifest := insertRec s.manifest (pdfKey baseDir f) (procRecord f "pymupdf"),
        disk := s.disk,
        outputs := s.outputs ++ [(outAbs baseDir f, content)],
        trace := s.trace ++ Event.openAttempt (pdfKey baseDir f) :: evs,
        dirsCreated := s.dirsCreated } := by
  simp [process_pdf, hskip, htb]

theorem process_pdf_ocr (ocrE : OcrEngine) (baseDir : String) (f : PdfFile)
    (s : St) (evs : List Event) (content : String)
    (hskip : isProcessed s.manifest (pdfKey baseDir f) = false)
    (htb : tryBody ocrE f = (evs, TryOutcome.ocr content)) :
    process_pdf ocrE baseDir f s =
      { manifest := insertRec s.manifest (pdfKey baseDir f) (procRecord f "tesseract"),
        disk := some (insertRec s.manifest (pdfKey baseDir f) (procRecord f "tesseract")),
        outputs := s.outputs ++ [(outAbs baseDir f, content)],
        trace := s.trace ++ Event.openAttempt (pdfKey baseDir f) :: evs,
        dirsCreated := s.dirsCreated ++ [metaParentAbs baseDir] } := by
  simp [process_pdf, hskip, htb, flushManifest]

theorem process_pdf_exn (ocrE : OcrEngine) (baseDir : String) (f : PdfFile)
    (s : St) (evs : List Event) (e : String)
    (hskip : isProcessed s.manifest (pdfKey baseDir f) = false)
    (htb : tryBody ocrE f = (evs, TryOutcome.exn e)) :
    process_pdf ocrE baseDir f s =
      { manifest := insertRec s.manifest (pdfKey baseDir f) (errRecord f e),
        disk := some (insertRec s.manifest (pdfKey baseDir f) (errRecord f e)),
        outputs := s.outputs,
        trace := s.trace ++ Event.openAttempt (pdfKey baseDir f) :: evs,
        dirsCreated := s.dirsCreated ++ [metaParentAbs baseDir] } := by
  simp [process_pdf, hskip, htb, flushManifest]

theorem tryBody_open_error (ocrE : OcrEngine) (f : PdfFile) (e : String)
    (h : f.openResult = Except.error e) :
    tryBody ocrE f = ([], TryOutcome.exn e) := by
  simp [tryBody, h]

theorem tryBody_digital_of (ocrE : OcrEngine) (f : PdfFile) (pages : List Page)
    (texts : List String)
    (hopen : f.openResult = Except.ok pages)
    (hdig : digitalLoop pages = Except.ok texts)
    (hgt : pyWordCount (pyStrip (String.intercalate "\n\n" texts)) > 20) :
    tryBody ocrE f
      = ([], TryOutcome.digital (pyStrip (String.intercalate "\n\n" texts))) := by
  simp [tryBody, hopen, hdig, hgt]

theorem tryBody_ocr_of (ocrE : OcrEngine) (f : PdfFile) (pages : List Page)
    (texts : List String) (evs : List Event) (ts : List String)
    (hopen : f.openResult = Except.ok pages)
    (hdig : digitalLoop pages = Except.ok texts)
    (hle : ¬ pyWordCount (pyStrip (String.intercalate "\n\n" texts)) > 20)
    (hocr : ocrLoop ocrE TESS_LANG 300 pages = (evs, Except.ok ts)) :
    tryBody ocrE f
      = (evs, TryOutcome.ocr (pyStrip (String.intercalate "\n\n" ts))) := by
  simp [tryBody, hopen, hdig, hle, hocr]

theorem ocrLoop_ok (ocrE : OcrEngine) (lang : String) (dpi : Nat)
    (pages : List Page) :
    ∀ evs ts, ocrLoop ocrE lang dpi pages = (evs, Except.ok ts) →
      evs = List.replicate pages.length (Event.ocrPage dpi lang) ∧
      List.Forall₂
        (fun p t => ∃ img, p.render dpi = Except.ok img ∧ ocrE img lang = Except.ok t)
        pages ts := by
  induction pages with
  | nil =>
    intro evs ts h
    simp [ocrLoop] at h
    obtain ⟨rfl, rfl⟩ := h
    exact ⟨rfl, List.Forall₂.nil⟩
  | cons p ps ih =>
    intro evs ts h
    cases hr : p.render dpi with
    | error e => simp [ocrLoop, hr] at h
    | ok img =>
      cases ho : ocrE img lang with
      | error e => simp [ocrLoop, hr, ho] at h
      | ok t =>
        cases hrec : ocrLoop ocrE lang dpi ps with
        | mk evs0 r =>
          cases r with
          | error e => simp [ocrLoop, hr, ho, hrec] at h
          | ok ts0 =>
            simp [ocrLoop, hr, ho, hrec] at h
            obtain ⟨rfl, rfl⟩ := h
            obtain ⟨he, hf⟩ := ih evs0 ts0 hrec
            exact ⟨by simp [he, List.replicate_succ],
              List.Forall₂.cons ⟨img, hr, ho⟩ hf⟩

theorem digitalLoop_forall2 (pages : List Page) (raw : List String)
    (h : List.Forall₂ (fun p t => p.getText = Except.ok t) pages raw) :
    digitalLoop pages
      = Except.ok ((raw.map pyStrip).filter (fun t => t != "")) := by
  induction h with
  | nil => simp [digitalLoop]
  | @cons a b l1 l2 hpt hrest ih =>
    simp only [digitalLoop, hpt, ih]
    by_cases he : pyStrip b = ""
    · simp [he, List.filter_cons]
    · simp [he, List.filter_cons]

theorem runPipeline_cons (ocrE : OcrEngine) (baseDir : String) (f : PdfFile)
    (fs : List PdfFile) (s : St) :
    runPipeline ocrE baseDir (f :: fs) s
      = runPipeline ocrE baseDir fs (process_pdf ocrE baseDir f s) := rfl

theorem process_pdf_dirs_extends (ocrE : OcrEngine) (baseDir : String)
    (f : PdfFile) (s : St) :
    ∃ l, (process_pdf ocrE baseDir f s).dirsCreated = s.dirsCreated ++ l := by
  by_cases hskip : isProcessed s.manifest (pdfKey baseDir f) = true
  · exact ⟨[], by simp [process_pdf_skipped ocrE baseDir f s hskip]⟩
  · cases htb : tryBody ocrE f with
    | mk evs outc =>
      cases outc with
      | digital c =>
        exact ⟨[], by
          simp [process_pdf_digital ocrE baseDir f s evs c
            (Bool.not_eq_true _ ▸ hskip) htb]⟩
      | ocr c =>
        exact ⟨[metaParentAbs baseDir], by
          simp [process_pdf_ocr ocrE baseDir f s evs c
            (Bool.not_eq_true _ ▸ hskip) htb]⟩
      | exn e =>
        exact ⟨[metaParentAbs baseDir], by
          simp [process_pdf_exn ocrE baseDir f s evs e
            (Bool.not_eq_true _ ▸ hskip) htb]⟩

theorem runPipeline_dirs_extends (ocrE : OcrEngine) (baseDir : String)
    (files : List PdfFile) :
    ∀ s, ∃ l, (runPipeline ocrE baseDir files s).dirsCreated
      = s.dirsCreated ++ l := by
  induction files with
  | nil => exact fun s => ⟨[], by simp [runPipeline]⟩
  | cons f fs ih =>
    intro s
    obtain ⟨l1, h1⟩ := process_pdf_dirs_extends ocrE baseDir f s
    obtain ⟨l2, h2⟩ := ih (process_pdf ocrE baseDir f s)
    exact ⟨l1 ++ l2, by rw [runPipeline_cons, h2, h1, List.append_assoc]⟩

/-! The claims. -/

/-- Claim C1.  The claim says the manifest file on disk is rewritten
immediately after every file that is actually processed, whether it
ended in digital success, OCR success, or error.  The code contradicts
this on the digital path: the early return at line 56 skips the flush at
lines 85 to 86.  This theorem evaluates the code at the failing input:
after a digital success over a fresh state the new record is in the
in-memory manifest while the disk manifest is still unwritten, whereas
the error path and the OCR path both flush. -/
theorem C1_digital_skips_flush :
    (process_pdf ocrE0 "/repo" fDigital st0).manifest
      = [(pdfKey "/repo" fDigital, procRecord fDigital "pymupdf")] ∧
    (process_pdf ocrE0 "/repo" fDigital st0).disk = none ∧
    (process_pdf ocrE0 "/repo" fBad st0).disk
      = some [(pdfKey "/repo" fBad, errRecord fBad "cannot open broken document")] ∧
    (process_pdf ocrE0 "/repo" fScan st0).disk
      = some [(pdfKey "/repo" fScan, procRecord fScan "tesseract")] := by
  decide

/-- Claim C2.  A key present with status processed is skipped entirely
(the state is returned unchanged: no extraction, no output, no record
change); a key that is absent, or present with any other status such as
error, is not skipped and processing is attempted (the document open is
attempted, first new trace event). -/
theorem C2_skip_predicate (ocrE : OcrEngine) (baseDir : String) (f : PdfFile)
    (s : St) :
    (isProcessed s.manifest (pdfKey baseDir f) = true →
      process_pdf ocrE baseDir f s = s) ∧
    (isProcessed s.manifest (pdfKey baseDir f) = false →
      ∃ evs, (process_pdf ocrE baseDir f s).trace
        = s.trace ++ Event.openAttempt (pdfKey baseDir f) :: evs) ∧
    (∀ r, findRec s.manifest (pdfKey baseDir f) = some r →
      r.status ≠ "processed" →
      isProcessed s.manifest (pdfKey baseDir f) = false) ∧
    (findRec s.manifest (pdfKey baseDir f) = none →
      isProcessed s.manifest (pdfKey baseDir f) = false) := by
  refine ⟨process_pdf_skipped ocrE baseDir f s, ?_, ?_, ?_⟩
  · intro hskip
    cases htb : tryBody ocrE f with
    | mk evs outc =>
      cases outc with
      | digital c =>
        exact ⟨evs, by
          rw [process_pdf_digital ocrE baseDir f s evs c hskip htb]⟩
      | ocr c =>
        exact ⟨evs, by
          rw [process_pdf_ocr ocrE baseDir f s evs c hskip htb]⟩
      | exn e =>
        exact ⟨evs, by
          rw [process_pdf_exn ocrE baseDir f s evs e hskip htb]⟩
  · intro r hfind hne
    simp [isProcessed, hfind, hne]
  · intro hfind
    simp [isProcessed, hfind]

/-- Witness for C2: over a manifest that marks fDigital processed, the
file is skipped with the state unchanged; over the empty manifest, the
scan file is attempted. -/
theorem C2_skip_predicate_witness :
    process_pdf ocrE0 "/repo" fDigital stDone = stDone ∧
    ∃ evs, (process_pdf ocrE0 "/repo" fScan st0).trace
      = st0.trace ++ Event.openAttempt (pdfKey "/repo" fScan) :: evs :=
  ⟨(C2_skip_predicate ocrE0 "/repo" fDigital stDone).1 (by decide),
   (C2_skip_predicate ocrE0 "/repo" fScan st0).2.1 (by decide)⟩

/-- Claim C3.  When the word count of the combined digital text exceeds
20 the digital path is taken: the record stores method pymupdf and the
trace shows no OCR page event, so OCR is never attempted; when it is at
most 20 the OCR fallback runs (its page events appear in the trace) and,
when it completes, the record stores method tesseract. -/
theorem C3_decision_threshold (ocrE : OcrEngine) (baseDir : String)
    (f : PdfFile) (s : St) (pages : List Page) (texts : List String)
    (hskip : isProcessed s.manifest (pdfKey baseDir f) = false)
    (hopen : f.openResult = Except.ok pages)
    (hdig : digitalLoop pages = Except.ok texts) :
    (pyWordCount (pyStrip (String.intercalate "\n\n" texts)) > 20 →
      findRec (process_pdf ocrE baseDir f s).manifest (pdfKey baseDir f)
        = some (procRecord f "pymupdf") ∧
      (process_pdf ocrE baseDir f s).trace
        = s.trace ++ [Event.openAttempt (pdfKey baseDir f)]) ∧
    (pyWordCount (pyStrip (String.intercalate "\n\n" texts)) ≤ 20 →
      ∀ evs ts, ocrLoop ocrE TESS_LANG 300 pages = (evs, Except.ok ts) →
        findRec (process_pdf ocrE baseDir f s).manifest (pdfKey baseDir f)
          = some (procRecord f "tesseract") ∧
        (process_pdf ocrE baseDir f s).trace
          = s.trace ++ Event.openAttempt (pdfKey baseDir f) :: evs) := by
  constructor
  · intro hgt
    have htb := tryBody_digital_of ocrE f pages texts hopen hdig hgt
    rw [process_pdf_digital ocrE baseDir f s []
      (pyStrip (String.intercalate "\n\n" texts)) hskip htb]
    exact ⟨findRec_insertRec_self _ _ _, rfl⟩
  · intro hle evs ts hocr
    have htb := tryBody_ocr_of ocrE f pages texts evs ts hopen hdig
      (by omega) hocr
    rw [process_pdf_ocr ocrE baseDir f s evs
      (pyStrip (String.intercalate "\n\n" ts)) hskip htb]
    exact ⟨findRec_insertRec_self _ _ _, rfl⟩

/-- Witness for C3: a 21-word document routes to the digital path with
method pymupdf; a 0-word document routes to OCR with method
tesseract. -/
theorem C3_decision_threshold_witness :
    (findRec (process_pdf ocrE0 "/repo" fDigital st0).manifest
        (pdfKey "/repo" fDigital) = some (procRecord fDigital "pymupdf")) ∧
    (findRec (process_pdf ocrE0 "/repo" fScan st0).manifest
        (pdfKey "/repo" fScan) = some (procRecord fScan "tesseract")) := by
  constructor
  · exact ((C3_decision_threshold ocrE0 "/repo" fDigital st0 [pageDigital]
      ["w w w w w w w w w w w w w w w w w w w w w"]
      (by decide) rfl rfl).1 (by decide)).1
  · exact ((C3_decision_threshold ocrE0 "/repo" fScan st0 [pageScan] []
      (by decide) rfl rfl).2 (by decide)
      [Event.ocrPage 300 TESS_LANG] ["<eng>imgS"] rfl).1

/-- Claim C5.  Any exception inside the try block (open, text
extraction, rasterizing, OCR) is caught: the record for the file becomes
an error record carrying pdf and the description, with no method and no
text path, no output artifact is written, and the batch loop simply
continues with the remaining files.  Open failures are one such
exception source. -/
theorem C5_error_isolation (ocrE : OcrEngine) (baseDir : String)
    (f : PdfFile) (s : St) (evs : List Event) (e : String)
    (hskip : isProcessed s.manifest (pdfKey baseDir f) = false)
    (htb : tryBody ocrE f = (evs, TryOutcome.exn e)) :
    findRec (process_pdf ocrE baseDir f s).manifest (pdfKey baseDir f)
      = some { pdf := f.relPath, text_path := none, method := none,
               status := "error", err := some e } ∧
    (process_pdf ocrE baseDir f s).outputs = s.outputs ∧
    (∀ e0, f.openResult = Except.error e0 →
      tryBody ocrE f = ([], TryOutcome.exn e0)) ∧
    (∀ fs, runPipeline ocrE baseDir (f :: fs) s
      = runPipeline ocrE baseDir fs (process_pdf ocrE baseDir f s)) := by
  refine ⟨?_, ?_, fun e0 h0 => tryBody_open_error ocrE f e0 h0,
    fun fs => rfl⟩
  · rw [process_pdf_exn ocrE baseDir f s evs e hskip htb]
    exact findRec_insertRec_self _ _ _
  · rw [process_pdf_exn ocrE baseDir f s evs e hskip htb]

/-- Witness for C5: the corrupt file gets an error record with no method
and no text path, and no artifact is written. -/
theorem C5_error_isolation_witness :
    findRec (process_pdf ocrE0 "/repo" fBad st0).manifest
        (pdfKey "/repo" fBad)
      = some { pdf := fBad.relPath, text_path := none, method := none,
               status := "error", err := some "cannot open broken document" } ∧
    (process_pdf ocrE0 "/repo" fBad st0).outputs = st0.outputs :=
  ⟨(C5_error_isolation ocrE0 "/repo" fBad st0 [] "cannot open broken document"
      (by decide) rfl).1,
   (C5_error_isolation ocrE0 "/repo" fBad st0 [] "cannot open broken document"
      (by decide) rfl).2.1⟩

/-- Counterexample to C4 as stated.  A first run over a single corrupt
file completes and leaves an error record in the manifest.  A second run
over the unchanged input, starting from that manifest, attempts the
document open again: its trace is non-empty, so new extraction work is
performed, contradicting the claim that a second run performs no new
extraction work. -/
theorem C4_second_run_retries_errors :
    findRec (runAll ocrE0 "/repo" [fBad] st0).manifest (pdfKey "/repo" fBad)
      = some (errRecord fBad "cannot open broken document") ∧
    (runAll ocrE0 "/repo" [fBad]
        (restartFrom "/repo" (runAll ocrE0 "/repo" [fBad] st0).manifest)).trace
      = [Event.openAttempt (pdfKey "/repo" fBad)] := by
  decide

/-- Claim C4, amended.  When every input file is marked processed in the
manifest the run starts from, the run performs no extraction work (no
trace events), writes no output artifact, and leaves every manifest
record unchanged; the only effects are re-creating the metadata
directory and rewriting the manifest file with the same mapping.  (The
unamended claim fails when the first run left error records: those files
are re-attempted, see the counterexample.) -/
theorem C4_idempotent_when_processed (ocrE : OcrEngine) (baseDir : String)
    (files : List PdfFile) :
    ∀ s : St, (∀ f ∈ files, isProcessed s.manifest (pdfKey baseDir f) = true) →
      runAll ocrE baseDir files s
        = { s with disk := some s.manifest,
                   dirsCreated := s.dirsCreated ++ [metaParentAbs baseDir] } := by
  induction files with
  | nil => intro s h; rfl
  | cons f fs ih =>
    intro s h
    have hs := process_pdf_skipped ocrE baseDir f s (h f (by simp))
    show flushManifest baseDir
      (runPipeline ocrE baseDir fs (process_pdf ocrE baseDir f s)) = _
    rw [hs]
    exact ih s (fun g hg => h g (by simp [hg]))

/-- Witness for the amended C4: re-running over a manifest that marks
the only input processed changes nothing but the disk copy of the same
mapping. -/
theorem C4_idempotent_when_processed_witness :
    runAll ocrE0 "/repo" [fDigital] stDone
      = { stDone with disk := some stDone.manifest,
                      dirsCreated := stDone.dirsCreated ++ [metaParentAbs "/repo"] } :=
  C4_idempotent_when_processed ocrE0 "/repo" [fDigital] stDone (by decide)

/-- Claim C6.  The digital extraction attempt trims each page text,
keeps only the non-empty ones in page order, joins them with a blank
line and trims the combined result; that combined string (the spec-side
specCombineDigital) is the one the word-count decision reads and the one
written to the output artifact on the digital path. -/
theorem C6_digital_combining (pages : List Page) (raw : List String)
    (h : List.Forall₂ (fun p t => p.getText = Except.ok t) pages raw) :
    digitalLoop pages
      = Except.ok ((raw.map pyStrip).filter (fun t => t != "")) ∧
    ∀ ocrE baseDir f s, f.openResult = Except.ok pages →
      isProcessed s.manifest (pdfKey baseDir f) = false →
      pyWordCount (specCombineDigital raw) > 20 →
      (process_pdf ocrE baseDir f s).outputs
        = s.outputs ++ [(outAbs baseDir f, specCombineDigital raw)] := by
  have hd := digitalLoop_forall2 pages raw h
  refine ⟨hd, ?_⟩
  intro ocrE baseDir f s hopen hskip hgt
  have htb := tryBody_digital_of ocrE f pages
    ((raw.map pyStrip).filter (fun t => t != "")) hopen hd hgt
  rw [process_pdf_digital ocrE baseDir f s []
    (pyStrip (String.intercalate "\n\n"
      ((raw.map pyStrip).filter (fun t => t != "")))) hskip htb]
  rfl

/-- Witness for C6 on the 21-word fixture. -/
theorem C6_digital_combining_witness :
    digitalLoop [pageDigital]
      = Except.ok (([" w w w w w w w w w w w w w w w w w w w w w "].map
          pyStrip).filter (fun t => t != "")) ∧
    (process_pdf ocrE0 "/repo" fDigital st0).outputs
      = st0.outputs ++ [(outAbs "/repo" fDigital,
          specCombineDigital [" w w w w w w w w w w w w w w w w w w w w w "])] := by
  have h := C6_digital_combining [pageDigital]
    [" w w w w w w w w w w w w w w w w w w w w w "]
    (List.Forall₂.cons rfl List.Forall₂.nil)
  exact ⟨h.1, h.2 ocrE0 "/repo" fDigital st0 rfl (by decide) (by decide)⟩

/-- Claim C7.  On the OCR fallback every page is, in document order,
rasterized at dpi 300 and recognized with the single configured language
string TESS_LANG, whose value is eng; the page results are joined with a
blank line, trimmed, and written to the artifact named after the input
stem with a txt extension inside the output directory; the record stores
method tesseract with status processed. -/
theorem C7_ocr_fallback (ocrE : OcrEngine) (baseDir : String) (f : PdfFile)
    (s : St) (pages : List Page) (texts : List String) (evs : List Event)
    (ts : List String)
    (hskip : isProcessed s.manifest (pdfKey baseDir f) = false)
    (hopen : f.openResult = Except.ok pages)
    (hdig : digitalLoop pages = Except.ok texts)
    (hle : pyWordCount (pyStrip (String.intercalate "\n\n" texts)) ≤ 20)
    (hocr : ocrLoop ocrE TESS_LANG 300 pages = (evs, Except.ok ts)) :
    TESS_LANG = "eng" ∧
    evs = List.replicate pages.length (Event.ocrPage 300 TESS_LANG) ∧
    List.Forall₂ (fun p t => ∃ img, p.render 300 = Except.ok img ∧
      ocrE img TESS_LANG = Except.ok t) pages ts ∧
    (process_pdf ocrE baseDir f s).outputs
      = s.outputs ++ [(outAbs baseDir f,
          pyStrip (String.intercalate "\n\n" ts))] ∧
    outRel f = OUT_DIR_REL ++ "/" ++ (f.stem ++ ".txt") ∧
    (process_pdf ocrE baseDir f s).trace
      = s.trace ++ Event.openAttempt (pdfKey baseDir f) :: evs ∧
    findRec (process_pdf ocrE baseDir f s).manifest (pdfKey baseDir f)
      = some (procRecord f "tesseract") := by
  obtain ⟨he, hf2⟩ := ocrLoop_ok ocrE TESS_LANG 300 pages evs ts hocr
  have htb := tryBody_ocr_of ocrE f pages texts evs ts hopen hdig
    (by omega) hocr
  rw [process_pdf_ocr ocrE baseDir f s evs
    (pyStrip (String.intercalate "\n\n" ts)) hskip htb]
  exact ⟨rfl, he, hf2, rfl, rfl, rfl, findRec_insertRec_self _ _ _⟩

/-- Witness for C7 on the scanned fixture. -/
theorem C7_ocr_fallback_witness :
    (process_pdf ocrE0 "/repo" fScan st0).outputs
      = st0.outputs ++ [(outAbs "/repo" fScan,
          pyStrip (String.intercalate "\n\n" ["<eng>imgS"]))] ∧
    findRec (process_pdf ocrE0 "/repo" fScan st0).manifest
        (pdfKey "/repo" fScan)
      = some (procRecord fScan "tesseract") := by
  have h := C7_ocr_fallback ocrE0 "/repo" fScan st0 [pageScan] []
    [Event.ocrPage 300 TESS_LANG] ["<eng>imgS"]
    (by decide) rfl rfl (by decide) rfl
  exact ⟨h.2.2.2.1, h.2.2.2.2.2.2⟩

/-- Claim C8.  An absent manifest file loads as the empty mapping and
the run proceeds to a final state; an unparseable manifest file makes
the load raise, the run dies with that error whatever the input files
are (its outcome is already that of the run over no files at all, so no
file is processed), with no silent recovery. -/
theorem C8_manifest_load (ocrE : OcrEngine) (baseDir : String)
    (files : List PdfFile) :
    loadManifest none = Except.ok [] ∧
    (∃ s, runScript ocrE baseDir none files = Except.ok s) ∧
    runScript ocrE baseDir (some none) files
      = runScript ocrE baseDir (some none) [] ∧
    (∃ e, runScript ocrE baseDir (some none) files = Except.error e) :=
  ⟨rfl, ⟨runAll ocrE baseDir files (initialSt baseDir none []), rfl⟩,
   rfl, ⟨"json.decoder.JSONDecodeError", rfl⟩⟩

/-- Claim C9.  Every record process_pdf writes is stored under the
absolute source path baseDir ++ / ++ relPath as key, while its pdf field
holds the BASE_DIR-relative source path and its text path field, when
present, holds the BASE_DIR-relative artifact path; the key is strictly
longer than the pdf field, so the two spellings are never equal. -/
theorem C9_key_and_fields (ocrE : OcrEngine) (baseDir : String)
    (f : PdfFile) (s : St) (r : Record)
    (hskip : isProcessed s.manifest (pdfKey baseDir f) = false)
    (hfind : findRec (process_pdf ocrE baseDir f s).manifest
      (pdfKey baseDir f) = some r) :
    pdfKey baseDir f = baseDir ++ "/" ++ f.relPath ∧
    r.pdf = f.relPath ∧
    pdfKey baseDir f ≠ r.pdf ∧
    (r.text_path = none ∨ r.text_path = some (outRel f)) := by
  have hkey : ∀ r0 : Record, r0.pdf = f.relPath → pdfKey baseDir f ≠ r0.pdf := by
    intro r0 h0 hc
    rw [h0] at hc
    have hl := congrArg String.length hc
    rw [pdfKey, String.length_append, String.length_append] at hl
    have h1 : ("/" : String).length = 1 := rfl
    omega
  cases htb : tryBody ocrE f with
  | mk evs outc =>
    cases outc with
    | digital c =>
      have hm : (process_pdf ocrE baseDir f s).manifest
          = insertRec s.manifest (pdfKey baseDir f) (procRecord f "pymupdf") := by
        rw [process_pdf_digital ocrE baseDir f s evs c hskip htb]
      rw [hm, findRec_insertRec_self] at hfind
      obtain rfl : procRecord f "pymupdf" = r := by injection hfind
      exact ⟨rfl, rfl, hkey _ rfl, Or.inr rfl⟩
    | ocr c =>
      have hm : (process_pdf ocrE baseDir f s).manifest
          = insertRec s.manifest (pdfKey baseDir f) (procRecord f "tesseract") := by
        rw [process_pdf_ocr ocrE baseDir f s evs c hskip htb]
      rw [hm, findRec_insertRec_self] at hfind
      obtain rfl : procRecord f "tesseract" = r := by injection hfind
      exact ⟨rfl, rfl, hkey _ rfl, Or.inr rfl⟩
    | exn e =>
      have hm : (process_pdf ocrE baseDir f s).manifest
          = insertRec s.manifest (pdfKey baseDir f) (errRecord f e) := by
        rw [process_pdf_exn ocrE baseDir f s evs e hskip htb]
      rw [hm, findRec_insertRec_self] at hfind
      obtain rfl : errRecord f e = r := by injection hfind
      exact ⟨rfl, rfl, hkey _ rfl, Or.inl rfl⟩

/-- Witness for C9 on the digital fixture. -/
theorem C9_key_and_fields_witness :
    pdfKey "/repo" fDigital = "/repo" ++ "/" ++ fDigital.relPath ∧
    (procRecord fDigital "pymupdf").pdf = fDigital.relPath ∧
    pdfKey "/repo" fDigital ≠ (procRecord fDigital "pymupdf").pdf ∧
    ((procRecord fDigital "pymupdf").text_path = none ∨
      (procRecord fDigital "pymupdf").text_path = some (outRel fDigital)) :=
  C9_key_and_fields ocrE0 "/repo" fDigital st0 (procRecord fDigital "pymupdf")
    (by decide) (by decide)

/-- Claim C10.  Whenever the manifest loads, the run ends with the
manifest file written unconditionally (its content is the final mapping
and the metadata directory is created for it), and the output directory
was created at startup (head of the mkdir list); over zero input files
the run produces no artifact, no trace event, and an unchanged mapping:
it only creates the two directories and writes the loaded mapping back
to the manifest file. -/
theorem C10_end_write_and_empty_run (ocrE : OcrEngine) (baseDir : String)
    (dm : MetaDisk) (m : Manifest) (files : List PdfFile)
    (hload : loadManifest dm = Except.ok m) :
    (∃ s, runScript ocrE baseDir dm files = Except.ok s ∧
      s.disk = some s.manifest ∧
      ∃ l, s.dirsCreated = outDirAbs baseDir :: l ∧
        metaParentAbs baseDir ∈ l) ∧
    runScript ocrE baseDir dm []
      = Except.ok (⟨m, some m, [], [],
          [outDirAbs baseDir, metaParentAbs baseDir]⟩ : St) := by
  have hrs : ∀ fl, runScript ocrE baseDir dm fl
      = Except.ok (runAll ocrE baseDir fl (initialSt baseDir dm m)) := by
    intro fl
    unfold runScript
    rw [hload]
  constructor
  · refine ⟨runAll ocrE baseDir files (initialSt baseDir dm m),
      hrs files, rfl, ?_⟩
    obtain ⟨l, hl⟩ := runPipeline_dirs_extends ocrE baseDir files
      (initialSt baseDir dm m)
    refine ⟨l ++ [metaParentAbs baseDir], ?_, by simp⟩
    show (flushManifest baseDir
      (runPipeline ocrE baseDir files (initialSt baseDir dm m))).dirsCreated = _
    simp only [flushManifest]
    rw [hl]
    simp [initialSt]
  · rw [hrs []]
    rfl

/-- Witness for C10: a run with no manifest file and no input files. -/
theorem C10_end_write_and_empty_run_witness :
    runScript ocrE0 "/repo" none []
      = Except.ok (⟨[], some [], [], [],
          [outDirAbs "/repo", metaParentAbs "/repo"]⟩ : St) :=
  (C10_end_write_and_empty_run ocrE0 "/repo" none [] [] rfl).2

end SmartLawyer
